import Mathlib

/-!
# Verification of the MZ-SOAR CRUD API (`tracecat/api.py`)

Shallow embedding of the FastAPI handlers in `src/tracecat/api.py`.

Modelling conventions:
* The relational store is a `DB` record of four row lists, one per table.
* A SQL `select ... where P` is `List.filter` over the table; sqlalchemy's
  `Result.one()` is `one` below, raising `NoResultFound` on zero rows and
  `MultipleResultsFound` on several, exactly as the library does.
* Handlers that can raise return `Except Err _`; mutating handlers return
  the updated `DB` alongside the response.
* `json.loads` is a library function outside this repository; handlers that
  deserialize take it as an explicit total parameter `loads : String → Json`,
  with `Json` an abbreviation kept abstract (`String`).
* ORM-generated values (row ids, the webhook secret) are passed to the
  handlers explicitly, standing for the generator's output; freshness of a
  generated id is a hypothesis where a theorem needs it.
* A Python `dict` comprehension keyed by row id is rendered as an
  association list in comprehension order (row ids are primary keys).
-/

namespace Tracecat

/-- Deserialized JSON values are never inspected by the handlers; they are
kept abstract as an alias so that `json.loads` can be any total function. -/
abbrev Json := String

/-- Row of the `Workflow` table: identity, title, description, status and an
optional serialized layout object (`tracecat/db.py`; fields as used by
`api.py` and described in spec §3). -/
structure Workflow where
  id : String
  title : String
  description : String
  status : String
  object : Option String
deriving Repr, DecidableEq

/-- Row of the `Action` table: identity, owning workflow reference, type tag,
title, description, status, lookup key, optional serialized inputs. -/
structure Action where
  id : String
  workflow_id : String
  type : String
  title : String
  description : String
  status : String
  action_key : String
  inputs : Option String
deriving Repr, DecidableEq

/-- Row of the `WorkflowRun` table. -/
structure WorkflowRun where
  id : String
  workflow_id : String
  status : String
deriving Repr, DecidableEq

/-- Row of the `Webhook` table: identity, path, owning action and workflow
references, shared secret. -/
structure Webhook where
  id : String
  path : String
  action_id : String
  workflow_id : String
  secret : String
deriving Repr, DecidableEq

/-- The relational store backing every handler. -/
structure DB where
  workflows : List Workflow
  actions : List Action
  workflow_runs : List WorkflowRun
  webhooks : List Webhook
deriving Repr, DecidableEq

/-- Primary-key well-formedness: row ids are unique per table. -/
def DB.uniqueIds (db : DB) : Prop :=
  (db.workflows.map Workflow.id).Nodup ∧
  (db.actions.map Action.id).Nodup ∧
  (db.workflow_runs.map WorkflowRun.id).Nodup ∧
  (db.webhooks.map Webhook.id).Nodup

instance (db : DB) : Decidable db.uniqueIds := by
  unfold DB.uniqueIds; infer_instance

/-- Errors a handler can raise: sqlalchemy lookup failures from
`Result.one()`, FastAPI `HTTPException`s, and Pydantic validation errors. -/
inductive Err where
  | noResultFound
  | multipleResultsFound
  | httpException (statusCode : Nat) (detail : String)
  | validationError (msg : String)
deriving Repr, DecidableEq

/-- sqlalchemy `Result.one()`: exactly one row or an error. -/
def one {α : Type} (rows : List α) : Except Err α :=
  match rows with
  | [] => .error .noResultFound
  | [row] => .ok row
  | _ => .error .multipleResultsFound

/-- `json.loads(x) if x else None` (`api.py` lines 171, 378, 416): Python
truthiness makes both `None` and the empty string deserialize to `None`. -/
def loadsOpt (loads : String → Json) : Option String → Option Json
  | none => none
  | some s => if s = "" then none else some (loads s)

/-! ## Response models (`api.py` lines 48-93, 454-514) -/

/-- `ActionResponse` (`api.py` line 48). -/
structure ActionResponse where
  id : String
  title : String
  description : String
  status : String
  inputs : Option Json
  key : String
deriving Repr, DecidableEq

/-- `WorkflowResponse` (`api.py` line 57); the `actions` dict is rendered as
an association list keyed by action id. -/
structure WorkflowResponse where
  id : String
  title : String
  description : String
  status : String
  actions : List (String × ActionResponse)
  object : Option Json
deriving Repr, DecidableEq

/-- `ActionMetadataResponse` (`api.py` line 66). -/
structure ActionMetadataResponse where
  id : String
  workflow_id : String
  type : String
  title : String
  description : String
  status : String
  key : String
deriving Repr, DecidableEq

/-- `WorkflowMetadataResponse` (`api.py` line 76). -/
structure WorkflowMetadataResponse where
  id : String
  title : String
  description : String
  status : String
deriving Repr, DecidableEq

/-- `WorkflowRunMetadataResponse` (`api.py` line 89). -/
structure WorkflowRunMetadataResponse where
  id : String
  workflow_id : String
  status : String
deriving Repr, DecidableEq

/-- The two values of `Literal["Authorized", "Unauthorized"]`. -/
inductive AuthStatus where
  | authorized
  | unauthorized
deriving Repr, DecidableEq

/-- `AuthenticateWebhookResponse` (`api.py` line 511): required `status`,
optional `action_key` and `webhook_id`. -/
structure AuthenticateWebhookResponse where
  status : AuthStatus
  action_key : Option String := none
  webhook_id : Option String := none
deriving Repr, DecidableEq

/-- The keyword arguments a call site passes when constructing
`AuthenticateWebhookResponse`; a field left `none` was not passed. The
source's call sites pass a keyword named `message`, which matches no
declared field. -/
structure AuthResponseKwargs where
  message : Option String := none
  status : Option AuthStatus := none
  action_key : Option String := none
  webhook_id : Option String := none
deriving Repr, DecidableEq

/-- Pydantic validation of an `AuthenticateWebhookResponse` construction:
unknown keywords (such as `message`) are ignored, and a missing required
field (`status` has no default) raises a `ValidationError`. -/
def validateAuthResponse (kw : AuthResponseKwargs) :
    Except Err AuthenticateWebhookResponse :=
  match kw.status with
  | none => .error (.validationError "status: Field required")
  | some st => .ok { status := st, action_key := kw.action_key,
                     webhook_id := kw.webhook_id }

/-! ## Request models -/

/-- `CreateWorkflowParams` (`api.py` line 117). -/
structure CreateWorkflowParams where
  title : String
  description : String
deriving Repr, DecidableEq

/-- `UpdateWorkflowParams` (`api.py` line 187): all fields optional. -/
structure UpdateWorkflowParams where
  title : Option String := none
  description : Option String := none
  status : Option String := none
  object : Option String := none
deriving Repr, DecidableEq

/-- `CreateActionParams` (`api.py` line 333): no description field. -/
structure CreateActionParams where
  workflow_id : String
  type : String
  title : String
deriving Repr, DecidableEq

/-- `CreateWebhookParams` (`api.py` line 434). -/
structure CreateWebhookParams where
  path : String
  action_id : String
  workflow_id : String
deriving Repr, DecidableEq

/-! ## ORM row constructors (`tracecat/db.py`, not under `src/`) -/

/-- Modelled from the spec: the `Workflow` model's default status
(`tracecat/db.py` is not under `src/`). Spec §4.1: create "generates
identity and default status"; §8 calls it "a known initial value". -/
def defaultWorkflowStatus : String := "offline"

/-- Modelled from the spec: the `Action` model's default status
(`tracecat/db.py` is not under `src/`). -/
def defaultActionStatus : String := "offline"

/-- Modelled from the spec: the `Action` model's lookup key, "a stable
lookup key derived from type+identity" (spec §3; `tracecat/db.py` is not
under `src/`). -/
def actionKey (ty id : String) : String := ty ++ "." ++ id

/-- Modelled from the spec: `Workflow(title=..., description=...)` — the ORM
generates the identity (passed in as `genId`), status defaults, and the
layout object starts absent (spec §3, §4.1). -/
def mkWorkflow (genId title description : String) : Workflow :=
  { id := genId, title := title, description := description,
    status := defaultWorkflowStatus, object := none }

/-- Modelled from the spec: `Action(workflow_id=..., type=..., title=...,
description=...)` — identity generated (passed in as `genId`), status
defaults, lookup key derived from type+identity, inputs start absent. -/
def mkAction (genId workflow_id ty title description : String) : Action :=
  { id := genId, workflow_id := workflow_id, type := ty, title := title,
    description := description, status := defaultActionStatus,
    action_key := actionKey ty genId, inputs := none }

/-- Modelled from the spec: `Webhook(path=..., action_id=...,
workflow_id=...)` — identity and shared secret generated server-side
(spec §3, §4.4), passed in as `genId` and `genSecret`. -/
def mkWebhook (genId genSecret path action_id workflow_id : String) : Webhook :=
  { id := genId, path := path, action_id := action_id,
    workflow_id := workflow_id, secret := genSecret }

/-! ## Workflow handlers -/

/-- `create_workflow` (`api.py` lines 122-137): inserts a new `Workflow` row
built from the request and returns its metadata. -/
def create_workflow (genId : String) (params : CreateWorkflowParams)
    (db : DB) : WorkflowMetadataResponse × DB :=
  let workflow := mkWorkflow genId params.title params.description
  ({ id := workflow.id, title := workflow.title,
     description := workflow.description, status := workflow.status },
   { db with workflows := db.workflows ++ [workflow] })

/-- The `ActionResponse` built per action inside `get_workflow`
(`api.py` lines 166-173). -/
def mkActionResponse (loads : String → Json) (a : Action) : ActionResponse :=
  { id := a.id, title := a.title, description := a.description,
    status := a.status, inputs := loadsOpt loads a.inputs,
    key := a.action_key }

/-- `get_workflow` (`api.py` lines 140-184): selects the workflow by id,
converting `NoResultFound` (and only that) into a 404 `HTTPException`; then
lists the actions whose `workflow_id` matches, deserializes the layout
object when present (`is not None` check, line 161), and assembles the
response. -/
def get_workflow (loads : String → Json) (workflow_id : String) (db : DB) :
    Except Err WorkflowResponse :=
  match one (db.workflows.filter (fun w => w.id == workflow_id)) with
  | .error .noResultFound =>
      .error (.httpException 404 "Resource not found")
  | .error e => .error e
  | .ok workflow =>
      let actions := db.actions.filter (fun a => a.workflow_id == workflow_id)
      .ok { id := workflow.id, title := workflow.title,
            description := workflow.description, status := workflow.status,
            actions := actions.map (fun a => (a.id, mkActionResponse loads a)),
            object := workflow.object.map loads }

/-- The field-by-field conditional assignment of `update_workflow`
(`api.py` lines 206-213): each request field is written only when present. -/
def applyWorkflowUpdate (params : UpdateWorkflowParams) (w : Workflow) :
    Workflow :=
  let w := match params.title with
    | some t => { w with title := t }
    | none => w
  let w := match params.description with
    | some d => { w with description := d }
    | none => w
  let w := match params.status with
    | some s => { w with status := s }
    | none => w
  match params.object with
  | some o => { w with object := some o }
  | none => w

/-- `update_workflow` (`api.py` lines 194-216): fetches the row with
`Result.one()` (lookup errors propagate unhandled), applies the conditional
field assignments to that row, and commits. -/
def update_workflow (workflow_id : String) (params : UpdateWorkflowParams)
    (db : DB) : Except Err (Unit × DB) :=
  match one (db.workflows.filter (fun w => w.id == workflow_id)) with
  | .error e => .error e
  | .ok _workflow =>
      .ok ((), { db with workflows := db.workflows.map (fun w =>
        if w.id == workflow_id then applyWorkflowUpdate params w else w) })

/-! ## WorkflowRun handlers -/

/-- `list_workflow_runs` (`api.py` lines 239-255): NOTE the source filters
on `WorkflowRun.id == workflow_id` — the run's own identity — not on the
run's `workflow_id` column. -/
def list_workflow_runs (workflow_id : String) (db : DB) :
    List WorkflowRunMetadataResponse :=
  (db.workflow_runs.filter (fun r => r.id == workflow_id)).map (fun r =>
    { id := r.id, workflow_id := r.workflow_id, status := r.status })

/-! ## Action handlers -/

/-- The `ActionMetadataResponse` built per action inside `list_actions`
(`api.py` lines 319-327); the `workflow_id` field echoes the query
parameter. -/
def mkActionMetadataResponse (workflow_id : String) (a : Action) :
    ActionMetadataResponse :=
  { id := a.id, workflow_id := workflow_id, type := a.type, title := a.title,
    description := a.description, status := a.status, key := a.action_key }

/-- `list_actions` (`api.py` lines 311-330): all actions whose
`workflow_id` column equals the query parameter. -/
def list_actions (workflow_id : String) (db : DB) :
    List ActionMetadataResponse :=
  (db.actions.filter (fun a => a.workflow_id == workflow_id)).map
    (mkActionMetadataResponse workflow_id)

/-- `create_action` (`api.py` lines 339-360): inserts an `Action` row with
the caller's workflow reference, type and title and an explicit empty
description, then returns its metadata from the stored row. -/
def create_action (genId : String) (params : CreateActionParams) (db : DB) :
    ActionMetadataResponse × DB :=
  let action := mkAction genId params.workflow_id params.type params.title ""
  ({ id := action.id, workflow_id := params.workflow_id, type := params.type,
     title := action.title, description := action.description,
     status := action.status, key := action.action_key },
   { db with actions := db.actions ++ [action] })

/-- `get_action` (`api.py` lines 363-380): single-row lookup scoped to
(action id, workflow id); `Result.one()` errors propagate unhandled. -/
def get_action (loads : String → Json) (action_id workflow_id : String)
    (db : DB) : Except Err ActionResponse :=
  match one (db.actions.filter (fun a =>
      a.id == action_id && a.workflow_id == workflow_id)) with
  | .error e => .error e
  | .ok action => .ok (mkActionResponse loads action)

/-- `delete_action` (`api.py` lines 421-428): fetches the row by id with
`Result.one()` (errors propagate unhandled) and deletes that row. -/
def delete_action (action_id : String) (db : DB) : Except Err (Unit × DB) :=
  match one (db.actions.filter (fun a => a.id == action_id)) with
  | .error e => .error e
  | .ok _action =>
      .ok ((), { db with actions := db.actions.filter (fun a =>
        !(a.id == action_id)) })

/-! ## Webhook handlers -/

/-- `create_webhook` (`api.py` lines 440-451): inserts the `Webhook` row and
returns `None` — no response body; the generated id and secret stay in the
store only. -/
def create_webhook (genId genSecret : String) (params : CreateWebhookParams)
    (db : DB) : Unit × DB :=
  let webhook := mkWebhook genId genSecret params.path params.action_id
    params.workflow_id
  ((), { db with webhooks := db.webhooks ++ [webhook] })

/-- `authenticate_webhook` (`api.py` lines 517-535): looks up the webhook by
id, then the action referenced by its `action_id` (both with `Result.one()`,
errors propagating), then compares the stored secret to the supplied one and
constructs the response — passing a `message` keyword and no `status`. -/
def authenticate_webhook (webhook_id secret : String) (db : DB) :
    Except Err AuthenticateWebhookResponse :=
  match one (db.webhooks.filter (fun w => w.id == webhook_id)) with
  | .error e => .error e
  | .ok webhook =>
      match one (db.actions.filter (fun a => a.id == webhook.action_id)) with
      | .error e => .error e
      | .ok action =>
          if webhook.secret ≠ secret then
            validateAuthResponse { message := some "Unauthorized" }
          else
            validateAuthResponse
              { message := some "Authorized",
                action_key := some action.action_key,
                webhook_id := some webhook_id }

/-! ## Concrete stores used as witnesses and counterexample inputs -/

/-- A stored action owned by workflow `wf-1`. -/
def exAction : Action :=
  { id := "act-1", workflow_id := "wf-1", type := "webhook", title := "Recv",
    description := "", status := "online", action_key := "webhook.act-1",
    inputs := none }

/-- A stored webhook bound to `exAction`, with stored secret `s3cr3t`. -/
def exWebhook : Webhook :=
  { id := "wh-1", path := "p", action_id := "act-1", workflow_id := "wf-1",
    secret := "s3cr3t" }

/-- A stored workflow with id `wf-1` and no layout object. -/
def exWorkflow : Workflow :=
  { id := "wf-1", title := "T1", description := "D1", status := "online",
    object := none }

/-- A second stored workflow, untouched by the updates under test. -/
def exWorkflow2 : Workflow :=
  { id := "wf-2", title := "T2", description := "D2", status := "draft",
    object := some "serialized-layout" }

/-- A run owned by workflow `wf-1` whose own id is `run-1`. -/
def exRun1 : WorkflowRun :=
  { id := "run-1", workflow_id := "wf-1", status := "pending" }

/-- A run whose own id collides with the workflow id `wf-1` but which is
owned by a different workflow. -/
def exRun2 : WorkflowRun :=
  { id := "wf-1", workflow_id := "wf-9", status := "pending" }

/-- Store holding `exWebhook` and its action. -/
def exDBAuth : DB :=
  { workflows := [], actions := [exAction], workflow_runs := [],
    webhooks := [exWebhook] }

/-- Store holding the two runs `exRun1` and `exRun2`. -/
def exDBRuns : DB :=
  { workflows := [], actions := [], workflow_runs := [exRun1, exRun2],
    webhooks := [] }

/-- Store holding two workflows and one action owned by `wf-1`. -/
def exDBWf : DB :=
  { workflows := [exWorkflow, exWorkflow2], actions := [exAction],
    workflow_runs := [], webhooks := [] }

/-- The empty store. -/
def exDBEmpty : DB :=
  { workflows := [], actions := [], workflow_runs := [], webhooks := [] }

/-- A second action owned by `wf-1`, to survive the deletion of `exAction`. -/
def exAction2 : Action :=
  { id := "act-2", workflow_id := "wf-1", type := "http_request",
    title := "Send", description := "d", status := "online",
    action_key := "http_request.act-2", inputs := some "serialized-inputs" }

/-- Store holding `exAction` and `exAction2`, both owned by `wf-1`. -/
def exDBActs : DB :=
  { workflows := [exWorkflow], actions := [exAction, exAction2],
    workflow_runs := [], webhooks := [] }

/-- An update request carrying only `status`, every other field absent. -/
def exStatusOnly : UpdateWorkflowParams := { status := some "published" }

/-! ## Helper lemmas about `filter` on a key column -/

/-- A `where key = k` filter over rows none of which has key `k` is empty. -/
theorem filter_key_eq_nil {α : Type} (key : α → String) (k : String)
    (xs : List α) (h : ∀ x ∈ xs, key x ≠ k) :
    xs.filter (fun y => key y == k) = [] := by
  induction xs with
  | nil => rfl
  | cons a tl ih =>
      have ha : (key a == k) = false :=
        beq_eq_false_iff_ne.mpr (h a (List.mem_cons_self a tl))
      have htl := ih (fun x hx => h x (List.mem_cons_of_mem _ hx))
      simp [List.filter_cons, ha, htl]

/-- Under per-table key uniqueness, a `where key = k` filter that has a
matching row `x` returns exactly `[x]`. -/
theorem filter_key_unique {α : Type} (key : α → String) (k : String)
    (xs : List α) (hnd : (xs.map key).Nodup) (x : α) (hx : x ∈ xs)
    (hk : key x = k) : xs.filter (fun y => key y == k) = [x] := by
  induction xs with
  | nil => cases hx
  | cons a tl ih =>
      rw [List.map_cons, List.nodup_cons] at hnd
      obtain ⟨hka, htl⟩ := hnd
      rcases List.mem_cons.mp hx with rfl | hxtl
      · have h1 : (key x == k) = true := beq_iff_eq.mpr hk
        have h2 : tl.filter (fun y => key y == k) = [] := by
          apply filter_key_eq_nil
          intro y hy hyk
          exact hka (hk ▸ hyk ▸ List.mem_map_of_mem key hy)
        simp [List.filter_cons, h1, h2]
      · have h1 : (key a == k) = false := by
          apply beq_eq_false_iff_ne.mpr
          intro hak
          exact hka ((hak.trans hk.symm) ▸ List.mem_map_of_mem key hxtl)
        simp [List.filter_cons, h1, ih htl hxtl]

/-- `get_workflow` when the workflow filter returns exactly one row: the
response is assembled from that row and the owned actions. -/
theorem get_workflow_eq_of_filter (loads : String → Json)
    (workflow_id : String) (db : DB) (w : Workflow)
    (hfil : db.workflows.filter (fun v => v.id == workflow_id) = [w]) :
    get_workflow loads workflow_id db = .ok
      { id := w.id, title := w.title, description := w.description,
        status := w.status,
        actions := (db.actions.filter (fun a => a.workflow_id == workflow_id)).map
          (fun a => (a.id, mkActionResponse loads a)),
        object := w.object.map loads } := by
  unfold get_workflow
  rw [hfil]
  rfl

/-! ## Claim theorems -/

/-- Claim C1: refuted by the code as written — for the stored webhook
`wh-1` whose stored secret is `s3cr3t`, `authenticate_webhook` raises a
Pydantic validation error with the correct secret and with a wrong one
alike: both response constructions pass a `message` keyword (matching no
declared field of `AuthenticateWebhookResponse`) and omit the required
`status` field, so no authorized or unauthorized result is ever returned. -/
theorem authenticate_webhook_response_construction_fails :
    authenticate_webhook "wh-1" "s3cr3t" exDBAuth
      = .error (.validationError "status: Field required") ∧
    authenticate_webhook "wh-1" "wrong" exDBAuth
      = .error (.validationError "status: Field required") := by
  constructor <;> rfl

/-- Claim C2: refuted by the code as written — `list_workflow_runs`
filters on the run's own identity, not its workflow reference: the store
`exDBRuns` holds `exRun1` owned by workflow `wf-1`, yet listing runs for
`wf-1` omits it and instead returns the run whose own id is `wf-1` though
it is owned by workflow `wf-9`. -/
theorem list_workflow_runs_filters_on_run_identity :
    (exRun1 ∈ exDBRuns.workflow_runs ∧ exRun1.workflow_id = "wf-1") ∧
    list_workflow_runs "wf-1" exDBRuns
      = [{ id := "wf-1", workflow_id := "wf-9", status := "pending" }] := by
  exact ⟨⟨by decide, rfl⟩, rfl⟩

/-- Claim C8: `create_action` stores the caller's workflow reference, type
and title with an explicitly empty description (the request carries no
description field), and the returned metadata echoes the stored row. -/
theorem create_action_stores_and_echoes (genId : String)
    (params : CreateActionParams) (db : DB) :
    create_action genId params db =
      ({ id := genId, workflow_id := params.workflow_id, type := params.type,
         title := params.title, description := "",
         status := defaultActionStatus, key := actionKey params.type genId },
       { db with actions := db.actions ++
          [{ id := genId, workflow_id := params.workflow_id,
             type := params.type, title := params.title, description := "",
             status := defaultActionStatus,
             action_key := actionKey params.type genId, inputs := none }] }) :=
  rfl

/-- Claim C9: `create_webhook` stores the new webhook row, with its
generated id and secret, but returns no body at all — the response
component is `()`, disclosing neither the id nor the secret. -/
theorem create_webhook_returns_no_body (genId genSecret : String)
    (params : CreateWebhookParams) (db : DB) :
    create_webhook genId genSecret params db =
      ((), { db with webhooks := db.webhooks ++
        [{ id := genId, path := params.path, action_id := params.action_id,
           workflow_id := params.workflow_id, secret := genSecret }] }) :=
  rfl

/-- Claim C3: under primary-key uniqueness of workflow ids, `get_workflow`
yields the 404 `HTTPException` exactly when no stored workflow has the
requested id; and for a stored workflow with that id it returns the
workflow's metadata, one entry per action whose workflow reference equals
the id (each built by `mkActionResponse`: id, title, description, status,
deserialized inputs, lookup key) and the deserialized layout object,
`none` when no layout is stored. -/
theorem get_workflow_notfound_iff_absent (loads : String → Json)
    (workflow_id : String) (db : DB)
    (hnd : (db.workflows.map Workflow.id).Nodup) :
    (get_workflow loads workflow_id db
        = .error (.httpException 404 "Resource not found") ↔
      ∀ w ∈ db.workflows, w.id ≠ workflow_id) ∧
    (∀ w ∈ db.workflows, w.id = workflow_id →
      get_workflow loads workflow_id db = .ok
        { id := w.id, title := w.title, description := w.description,
          status := w.status,
          actions := (db.actions.filter
              (fun a => a.workflow_id == workflow_id)).map
            (fun a => (a.id, mkActionResponse loads a)),
          object := w.object.map loads }) := by
  constructor
  · constructor
    · intro h404 w hw
      by_contra hcon
      have hfil :=
        filter_key_unique Workflow.id workflow_id db.workflows hnd w hw hcon
      rw [get_workflow_eq_of_filter loads workflow_id db w hfil] at h404
      cases h404
    · intro habs
      have hfil := filter_key_eq_nil Workflow.id workflow_id db.workflows habs
      unfold get_workflow
      rw [hfil]
      rfl
  · intro w hw hid
    exact get_workflow_eq_of_filter loads workflow_id db w
      (filter_key_unique Workflow.id workflow_id db.workflows hnd w hw hid)

/-- Witness for C3 on a concrete store. -/
theorem get_workflow_notfound_iff_absent_witness :
    (exDBWf.workflows.map Workflow.id).Nodup ∧
    ((get_workflow (fun s => s) "wf-1" exDBWf
        = .error (.httpException 404 "Resource not found") ↔
      ∀ w ∈ exDBWf.workflows, w.id ≠ "wf-1") ∧
     (∀ w ∈ exDBWf.workflows, w.id = "wf-1" →
       get_workflow (fun s => s) "wf-1" exDBWf = .ok
         { id := w.id, title := w.title, description := w.description,
           status := w.status,
           actions := (exDBWf.actions.filter
               (fun a => a.workflow_id == "wf-1")).map
             (fun a => (a.id, mkActionResponse (fun s => s) a)),
           object := w.object.map (fun s => s) })) :=
  ⟨by decide,
   get_workflow_notfound_iff_absent (fun s => s) "wf-1" exDBWf (by decide)⟩

/-- Claim C4: `update_workflow` on a stored workflow succeeds and rewrites
only the row whose id matches, replacing it by `applyWorkflowUpdate`; on
that row each field equals the request's value when the request carries
one and the previously stored value otherwise — in particular a request
carrying only `status` leaves title, description and the layout object
unchanged. -/
theorem update_workflow_partial_update (workflow_id : String)
    (params : UpdateWorkflowParams) (db : DB)
    (hnd : (db.workflows.map Workflow.id).Nodup)
    (w : Workflow) (hw : w ∈ db.workflows) (hid : w.id = workflow_id) :
    update_workflow workflow_id params db = .ok ((), { db with
      workflows := db.workflows.map (fun v =>
        if v.id == workflow_id then applyWorkflowUpdate params v else v) }) ∧
    (applyWorkflowUpdate params w).title = params.title.getD w.title ∧
    (applyWorkflowUpdate params w).description
      = params.description.getD w.description ∧
    (applyWorkflowUpdate params w).status = params.status.getD w.status ∧
    (applyWorkflowUpdate params w).object
      = (params.object.map some).getD w.object := by
  have hfil :=
    filter_key_unique Workflow.id workflow_id db.workflows hnd w hw hid
  refine ⟨?_, ?_, ?_, ?_, ?_⟩
  · unfold update_workflow
    rw [hfil]
    rfl
  all_goals
    unfold applyWorkflowUpdate
    rcases params with ⟨t, d, s, o⟩
    cases t <;> cases d <;> cases s <;> cases o <;> rfl

/-- Witness for C4: updating only `status` on a concrete two-workflow
store. -/
theorem update_workflow_partial_update_witness :
    ((exDBWf.workflows.map Workflow.id).Nodup ∧
     exWorkflow ∈ exDBWf.workflows ∧ exWorkflow.id = "wf-1") ∧
    (update_workflow "wf-1" exStatusOnly exDBWf = .ok ((), { exDBWf with
        workflows := exDBWf.workflows.map (fun v =>
          if v.id == "wf-1" then applyWorkflowUpdate exStatusOnly v
          else v) }) ∧
     (applyWorkflowUpdate exStatusOnly exWorkflow).title
       = exStatusOnly.title.getD exWorkflow.title ∧
     (applyWorkflowUpdate exStatusOnly exWorkflow).description
       = exStatusOnly.description.getD exWorkflow.description ∧
     (applyWorkflowUpdate exStatusOnly exWorkflow).status
       = exStatusOnly.status.getD exWorkflow.status ∧
     (applyWorkflowUpdate exStatusOnly exWorkflow).object
       = (exStatusOnly.object.map some).getD exWorkflow.object) :=
  ⟨⟨by decide, by decide, by decide⟩,
   update_workflow_partial_update "wf-1" exStatusOnly exDBWf (by decide)
     exWorkflow (by decide) (by decide)⟩

/-- Claim C5: creating a workflow with a fresh generated id and then
fetching that id yields the given title and description, the default
initial status, an empty actions map and a null layout object. -/
theorem create_then_get_workflow_roundtrip (loads : String → Json)
    (genId T D : String) (db : DB)
    (hfresh : ∀ w ∈ db.workflows, w.id ≠ genId)
    (hacts : ∀ a ∈ db.actions, a.workflow_id ≠ genId) :
    (create_workflow genId { title := T, description := D } db).1.id
      = genId ∧
    get_workflow loads genId
        (create_workflow genId { title := T, description := D } db).2
      = .ok { id := genId, title := T, description := D,
              status := defaultWorkflowStatus, actions := [],
              object := none } := by
  refine ⟨rfl, ?_⟩
  have hold := filter_key_eq_nil Workflow.id genId db.workflows hfresh
  have hacts' :=
    filter_key_eq_nil Action.workflow_id genId db.actions hacts
  have hfil : ((create_workflow genId { title := T, description := D }
        db).2).workflows.filter (fun v => v.id == genId)
      = [mkWorkflow genId T D] := by
    show (db.workflows ++ [mkWorkflow genId T D]).filter
        (fun v => v.id == genId) = [mkWorkflow genId T D]
    rw [List.filter_append, hold]
    simp [mkWorkflow]
  rw [get_workflow_eq_of_filter loads genId _ (mkWorkflow genId T D) hfil]
  show Except.ok _ = _
  rw [show ((create_workflow genId { title := T, description := D }
      db).2).actions = db.actions from rfl, hacts']
  rfl

/-- Witness for C5 on the empty store. -/
theorem create_then_get_workflow_roundtrip_witness :
    ((∀ w ∈ exDBEmpty.workflows, w.id ≠ "wf-9") ∧
     (∀ a ∈ exDBEmpty.actions, a.workflow_id ≠ "wf-9")) ∧
    ((create_workflow "wf-9" { title := "T", description := "D" }
        exDBEmpty).1.id = "wf-9" ∧
     get_workflow (fun s => s) "wf-9"
        (create_workflow "wf-9" { title := "T", description := "D" }
          exDBEmpty).2
       = .ok { id := "wf-9", title := "T", description := "D",
               status := defaultWorkflowStatus, actions := [],
               object := none }) :=
  ⟨⟨by decide, by decide⟩,
   create_then_get_workflow_roundtrip (fun s => s) "wf-9" "T" "D" exDBEmpty
     (by decide) (by decide)⟩

/-- Claim C6: deleting a stored action succeeds, and in the subsequent
action listing for its workflow the deleted id no longer occurs while
every other action of that workflow still has its entry. -/
theorem delete_action_removes_only_deleted_from_list (action_id : String)
    (db : DB) (hnd : (db.actions.map Action.id).Nodup)
    (a : Action) (ha : a ∈ db.actions) (hid : a.id = action_id) :
    ∃ db', delete_action action_id db = .ok ((), db') ∧
      (∀ m ∈ list_actions a.workflow_id db', m.id ≠ action_id) ∧
      (∀ b ∈ db.actions, b.id ≠ action_id →
        b.workflow_id = a.workflow_id →
        mkActionMetadataResponse a.workflow_id b
          ∈ list_actions a.workflow_id db') := by
  have hfil := filter_key_unique Action.id action_id db.actions hnd a ha hid
  refine ⟨{ db with actions := db.actions.filter (fun b => !(b.id == action_id)) }, ?_, ?_, ?_⟩
  · unfold delete_action
    rw [hfil]
    rfl
  · intro m hm
    unfold list_actions at hm
    obtain ⟨b, hb, rfl⟩ := List.mem_map.mp hm
    have hb1 := (List.mem_filter.mp hb).1
    have hb2 : (!(b.id == action_id)) = true := (List.mem_filter.mp hb1).2
    have : b.id ≠ action_id := by simpa using hb2
    simpa [mkActionMetadataResponse] using this
  · intro b hb hbid hbwf
    unfold list_actions
    apply List.mem_map.mpr
    refine ⟨b, ?_, rfl⟩
    apply List.mem_filter.mpr
    refine ⟨List.mem_filter.mpr ⟨hb, ?_⟩, ?_⟩
    · simpa using hbid
    · simpa using hbwf

/-- Witness for C6 on a concrete two-action store. -/
theorem delete_action_removes_only_deleted_from_list_witness :
    ((exDBActs.actions.map Action.id).Nodup ∧
     exAction ∈ exDBActs.actions ∧ exAction.id = "act-1") ∧
    (∃ db', delete_action "act-1" exDBActs = .ok ((), db') ∧
      (∀ m ∈ list_actions exAction.workflow_id db', m.id ≠ "act-1") ∧
      (∀ b ∈ exDBActs.actions, b.id ≠ "act-1" →
        b.workflow_id = exAction.workflow_id →
        mkActionMetadataResponse exAction.workflow_id b
          ∈ list_actions exAction.workflow_id db')) :=
  ⟨⟨by decide, by decide, by decide⟩,
   delete_action_removes_only_deleted_from_list "act-1" exDBActs (by decide)
     exAction (by decide) (by decide)⟩

/-- Claim C7: when no row matches, `get_action`, `update_workflow` and
`delete_action` all surface the raw `NoResultFound` lookup error — which
is not the controlled 404 `HTTPException` that only workflow get-by-id
produces. -/
theorem lookup_endpoints_propagate_no_result_found (loads : String → Json)
    (action_id workflow_id wf_id : String) (params : UpdateWorkflowParams)
    (db : DB) (ha : ∀ a ∈ db.actions, a.id ≠ action_id)
    (hw : ∀ w ∈ db.workflows, w.id ≠ wf_id) :
    get_action loads action_id workflow_id db = .error .noResultFound ∧
    update_workflow wf_id params db = .error .noResultFound ∧
    delete_action action_id db = .error .noResultFound ∧
    (∀ code detail, Err.noResultFound ≠ Err.httpException code detail) := by
  have hwfil := filter_key_eq_nil Workflow.id wf_id db.workflows hw
  have hafil := filter_key_eq_nil Action.id action_id db.actions ha
  have hgfil : db.actions.filter
      (fun a => a.id == action_id && a.workflow_id == workflow_id) = [] := by
    rw [List.filter_eq_nil_iff]
    intro a hmem
    simp [beq_eq_false_iff_ne.mpr (ha a hmem)]
  refine ⟨?_, ?_, ?_, ?_⟩
  · unfold get_action
    rw [hgfil]
    rfl
  · unfold update_workflow
    rw [hwfil]
    rfl
  · unfold delete_action
    rw [hafil]
    rfl
  · intro code detail h
    cases h

/-- Witness for C7 on the empty store. -/
theorem lookup_endpoints_propagate_no_result_found_witness :
    ((∀ a ∈ exDBEmpty.actions, a.id ≠ "act-1") ∧
     (∀ w ∈ exDBEmpty.workflows, w.id ≠ "wf-1")) ∧
    (get_action (fun s => s) "act-1" "wf-1" exDBEmpty
       = .error .noResultFound ∧
     update_workflow "wf-1" exStatusOnly exDBEmpty
       = .error .noResultFound ∧
     delete_action "act-1" exDBEmpty = .error .noResultFound ∧
     (∀ code detail, Err.noResultFound ≠ Err.httpException code detail)) :=
  ⟨⟨by decide, by decide⟩,
   lookup_endpoints_propagate_no_result_found (fun s => s) "act-1" "wf-1"
     "wf-1" exStatusOnly exDBEmpty (by decide) (by decide)⟩

/-- Claim C10: `authenticate_webhook` resolves the webhook row and then
the action row referenced by its `action_id` before any secret handling;
when either row is missing the call returns the propagated `NoResultFound`
lookup error, and the outcome is identical for any two supplied secrets —
no authorization decision depends on the secret. -/
theorem authenticate_webhook_requires_both_lookups
    (webhook_id s1 s2 : String) (db : DB)
    (h : (∀ w ∈ db.webhooks, w.id ≠ webhook_id) ∨
         (∃ w, db.webhooks.filter (fun v => v.id == webhook_id) = [w] ∧
               ∀ a ∈ db.actions, a.id ≠ w.action_id)) :
    authenticate_webhook webhook_id s1 db = .error .noResultFound ∧
    authenticate_webhook webhook_id s1 db
      = authenticate_webhook webhook_id s2 db := by
  have key : ∀ s, authenticate_webhook webhook_id s db
      = .error .noResultFound := by
    intro s
    rcases h with h | ⟨w, hw, ha⟩
    · have hfil := filter_key_eq_nil Webhook.id webhook_id db.webhooks h
      unfold authenticate_webhook
      rw [hfil]
      rfl
    · have hfil := filter_key_eq_nil Action.id w.action_id db.actions ha
      unfold authenticate_webhook
      rw [hw]
      show (match one (db.actions.filter
          (fun a => a.id == w.action_id)) with
        | Except.error e => Except.error e
        | Except.ok action => _) = Except.error Err.noResultFound
      rw [hfil]
      rfl
  exact ⟨key s1, (key s1).trans (key s2).symm⟩

/-- Witness for C10 on the empty store. -/
theorem authenticate_webhook_requires_both_lookups_witness :
    ((∀ w ∈ exDBEmpty.webhooks, w.id ≠ "wh-1") ∨
     (∃ w, exDBEmpty.webhooks.filter (fun v => v.id == "wh-1") = [w] ∧
           ∀ a ∈ exDBEmpty.actions, a.id ≠ w.action_id)) ∧
    (authenticate_webhook "wh-1" "a" exDBEmpty = .error .noResultFound ∧
     authenticate_webhook "wh-1" "a" exDBEmpty
       = authenticate_webhook "wh-1" "b" exDBEmpty) :=
  ⟨.inl (by decide),
   authenticate_webhook_requires_both_lookups "wh-1" "a" "b" exDBEmpty
     (.inl (by decide))⟩

end Tracecat
